import Mathlib

/-!
Shallow embedding of the WaterCoin droplet-physics simulation core.

The definitions below are translated from the JavaScript source:
- `MockWaterSimulationEngine` (droplets, splash effects, water level),
- `FrameRateMonitor`, `PerformanceScaler`,
- the milestone-threshold evaluation loop of the test runner,
- a Progress Manager modelled from the spec (its implementation is not in
  the repository sources; only localStorage-based tests exercise it).

JavaScript numbers are modelled as exact rationals (`ℚ`); `Math.random()`
draws are passed in explicitly as rational parameters (the source's only
uses are droplet velocity/size jitter and splash radius/speed jitter);
`performance.now()` is an injected clock argument.
-/

namespace WaterCoin

/-- A falling droplet, as pushed by `MockWaterSimulationEngine.addDroplet`:
`{x, y, velocityX, velocityY, size, life, splashed}`. -/
structure Droplet where
  x : ℚ
  y : ℚ
  velocityX : ℚ
  velocityY : ℚ
  size : ℚ
  life : ℚ
  splashed : Bool
deriving Repr, DecidableEq

/-- A splash-ring effect, as pushed by `MockWaterSimulationEngine.createSplash`:
`{x, y, radius, maxRadius, expansionSpeed, opacity, life}`. -/
structure Splash where
  x : ℚ
  y : ℚ
  radius : ℚ
  maxRadius : ℚ
  expansionSpeed : ℚ
  opacity : ℚ
  life : ℚ
deriving Repr, DecidableEq

/-- State of `MockWaterSimulationEngine`. -/
structure Engine where
  waterLevel : ℚ
  droplets : List Droplet
  splashEffects : List Splash
  gravity : ℚ
  dropletIncrement : ℚ
  maxDroplets : ℕ
  maxSplashEffects : ℕ
deriving Repr, DecidableEq

/-- The constructor of `MockWaterSimulationEngine`. -/
def Engine.init : Engine :=
  { waterLevel := 0
    droplets := []
    splashEffects := []
    gravity := 1/2
    dropletIncrement := 4/5
    maxDroplets := 10
    maxSplashEffects := 5 }

/-- Method `addDroplet(x, y)`: refuses (returns `false`, state untouched) when the
droplet list is already at `maxDroplets`; otherwise pushes a fresh droplet
with `velocityX = (Math.random() - 0.5) * 2` (the draw `r1` is a parameter),
`velocityY = 0`, `size = 4 + Math.random() * 2` (draw `r2`), `life = 1`,
`splashed = false`, and returns `true`. -/
def Engine.addDroplet (e : Engine) (x y r1 r2 : ℚ) : Engine × Bool :=
  if e.droplets.length ≥ e.maxDroplets then
    (e, false)
  else
    ({ e with droplets := e.droplets ++
        [{ x := x, y := y
           velocityX := (r1 - 1/2) * 2
           velocityY := 0
           size := 4 + r2 * 2
           life := 1
           splashed := false }] },
     true)

/-- The splash record pushed by `createSplash(x, y)`; the two `Math.random()`
draws (`maxRadius = 30 + r·20`, `expansionSpeed = 50 + r·30`) are parameters. -/
def newSplash (x y rMax rSpeed : ℚ) : Splash :=
  { x := x, y := y
    radius := 2
    maxRadius := 30 + rMax * 20
    expansionSpeed := 50 + rSpeed * 30
    opacity := 4/5
    life := 1 }

/-- List-level body of `createSplash`: when the list is at or above the cap,
`shift()` the oldest (index 0) before `push`ing the new splash. -/
def pushSplash (cap : ℕ) (splashes : List Splash) (x y rMax rSpeed : ℚ) :
    List Splash :=
  (if splashes.length ≥ cap then splashes.tail else splashes) ++
    [newSplash x y rMax rSpeed]

/-- Method `createSplash(x, y)` on the engine state. -/
def Engine.createSplash (e : Engine) (x y rMax rSpeed : ℚ) : Engine :=
  { e with splashEffects :=
      pushSplash e.maxSplashEffects e.splashEffects x y rMax rSpeed }

/-- JavaScript `Math.min` on two numbers (kernel-reducible form of `min` on `ℚ`). -/
def jsMin (a b : ℚ) : ℚ := if a ≤ b then a else b

/-- JavaScript `Math.max` on two numbers (kernel-reducible form of `max` on `ℚ`). -/
def jsMax (a b : ℚ) : ℚ := if a ≤ b then b else a

/-- The statement `this.waterLevel = Math.min(100, this.waterLevel + this.dropletIncrement)` —
the water-level increment performed on each droplet-surface collision. -/
def applyCollision (incr wl : ℚ) : ℚ := jsMin 100 (wl + incr)

/-- One iteration of the droplet loop of `update(deltaTime)` for a single
droplet: integrate gravity and position, detect surface collision (raising
the water level and creating a splash), then cull (`y > 450 || life <= 0`)
or age the droplet. The threaded state is
(water level, splash list, next random-draw index). -/
def stepDroplet (dt g incr : ℚ) (cap : ℕ) (rng : ℕ → ℚ × ℚ) (d : Droplet)
    (st : ℚ × List Splash × ℕ) : List Droplet × (ℚ × List Splash × ℕ) :=
  let vy := d.velocityY + g * dt
  let x := d.x + d.velocityX * dt
  let y := d.y + vy * dt
  let surfaceY := 400 - st.1 / 100 * 300
  let collides : Bool := decide (surfaceY ≤ y) && !d.splashed
  let st' :=
    if collides then
      (applyCollision incr st.1,
       pushSplash cap st.2.1 x surfaceY (rng st.2.2).1 (rng st.2.2).2,
       st.2.2 + 1)
    else st
  let d' : Droplet :=
    { d with x := x, y := y, velocityY := vy
             splashed := d.splashed || collides }
  if 450 < y ∨ d.life ≤ 0 then
    ([], st')
  else
    ([{ d' with life := d.life - dt * (1/1000) }], st')

/-- The droplet loop of `update` runs from the last index down to 0 and
splices removals in place, so the tail of the list is processed first and
survivors keep their relative order. -/
def stepDroplets (dt g incr : ℚ) (cap : ℕ) (rng : ℕ → ℚ × ℚ) :
    List Droplet → ℚ × List Splash × ℕ → List Droplet × (ℚ × List Splash × ℕ)
  | [], st => ([], st)
  | d :: rest, st =>
    let tailRes := stepDroplets dt g incr cap rng rest st
    let dRes := stepDroplet dt g incr cap rng d tailRes.2
    (dRes.1 ++ tailRes.1, dRes.2)

/-- One iteration of the splash loop of `update(deltaTime)`: grow the radius
by `expansionSpeed * deltaTime`, decay opacity by `deltaTime * 0.002` and
life by `deltaTime * 0.001`, then splice the splash out when
`life <= 0 || opacity <= 0`. -/
def stepSplash (dt : ℚ) (s : Splash) : Option Splash :=
  let radius := s.radius + s.expansionSpeed * dt
  let opacity := s.opacity - dt * (2/1000)
  let life := s.life - dt * (1/1000)
  if life ≤ 0 ∨ opacity ≤ 0 then none
  else some { s with radius := radius, opacity := opacity, life := life }

/-- Method `update(deltaTime)`: the droplet loop (collisions may raise the water
level and append splashes), then the splash loop over the resulting splash
list. -/
def Engine.update (e : Engine) (dt : ℚ) (rng : ℕ → ℚ × ℚ) : Engine :=
  let r := stepDroplets dt e.gravity e.dropletIncrement e.maxSplashEffects rng
    e.droplets (e.waterLevel, e.splashEffects, 0)
  { e with droplets := r.1
           waterLevel := r.2.1
           splashEffects := (r.2.2.1).filterMap (stepSplash dt) }

/-- A constant stream standing in for `Math.random()` in concrete scenarios. -/
def rngZero : ℕ → ℚ × ℚ := fun _ => (0, 0)

/-- State of `FrameRateMonitor`. -/
structure FrameRateMonitor where
  frameCount : ℕ
  lastTime : ℚ
  fps : ℚ
  fpsHistory : List ℚ
  maxHistoryLength : ℕ
deriving Repr, DecidableEq

/-- The constructor of `FrameRateMonitor`; `performance.now()` at
construction time is the injected `now`. -/
def FrameRateMonitor.init (now : ℚ) : FrameRateMonitor :=
  { frameCount := 0
    lastTime := now
    fps := 60
    fpsHistory := []
    maxHistoryLength := 60 }

/-- Method `getAverageFps()`: 60 on an empty history, else the arithmetic mean. -/
def FrameRateMonitor.getAverageFps (m : FrameRateMonitor) : ℚ :=
  if m.fpsHistory = [] then 60 else m.fpsHistory.sum / m.fpsHistory.length

/-- Method `FrameRateMonitor.update()`: when the wall-clock delta is strictly
positive, push `1000 / delta` as an fps sample, `shift()` the history back
to `maxHistoryLength` if it overflowed, and recompute the rolling mean;
otherwise leave the history and mean alone. `lastTime` and `frameCount`
advance either way. -/
def FrameRateMonitor.update (m : FrameRateMonitor) (now : ℚ) :
    FrameRateMonitor :=
  let dt := now - m.lastTime
  if 0 < dt then
    let pushed := m.fpsHistory ++ [1000 / dt]
    let hist := if m.maxHistoryLength < pushed.length then pushed.tail
                else pushed
    { m with fpsHistory := hist
             fps := FrameRateMonitor.getAverageFps { m with fpsHistory := hist }
             lastTime := now
             frameCount := m.frameCount + 1 }
  else
    { m with lastTime := now, frameCount := m.frameCount + 1 }

/-- Method `getCurrentFps()`: `Math.round(this.fps)` (round half toward +∞). -/
def FrameRateMonitor.getCurrentFps (m : FrameRateMonitor) : ℤ :=
  ⌊m.fps + 1/2⌋

/-- State of `PerformanceScaler`. -/
structure PerformanceScaler where
  performanceLevel : ℚ
  lastAdjustment : ℚ
  adjustmentCooldown : ℚ
  minPerformanceLevel : ℚ
deriving Repr, DecidableEq

/-- The constructor of `PerformanceScaler`. -/
def PerformanceScaler.init : PerformanceScaler :=
  { performanceLevel := 1
    lastAdjustment := 0
    adjustmentCooldown := 2000
    minPerformanceLevel := 3/10 }

/-- Method `adjustPerformance(frameRateMonitor)`: returns the unchanged level when
less than the cooldown has elapsed since the last adjustment; otherwise
applies the fps ladder (`<20 → ×0.6`, `<30 → ×0.8`, `>50` while below 1 →
`×1.1`), records the adjustment time, and returns the (possibly unchanged)
new level. `performance.now()` is the injected `now`. -/
def PerformanceScaler.adjustPerformance (s : PerformanceScaler) (now : ℚ)
    (monitor : FrameRateMonitor) : PerformanceScaler × ℚ :=
  if now - s.lastAdjustment < s.adjustmentCooldown then
    (s, s.performanceLevel)
  else
    let fps := monitor.getCurrentFps
    let lvl :=
      if fps < 20 then jsMax s.minPerformanceLevel (s.performanceLevel * (3/5))
      else if fps < 30 then
        jsMax s.minPerformanceLevel (s.performanceLevel * (4/5))
      else if 50 < fps ∧ s.performanceLevel < 1 then
        jsMin 1 (s.performanceLevel * (11/10))
      else s.performanceLevel
    ({ s with performanceLevel := lvl, lastAdjustment := now }, lvl)

/-- Method `getScaledValue(baseValue)`: `Math.max(1, Math.floor(base * level))`. -/
def PerformanceScaler.getScaledValue (s : PerformanceScaler) (base : ℚ) : ℤ :=
  max 1 ⌊base * s.performanceLevel⌋

/-- Achievement flags of the three milestones (`fish`=30, `waves`=70,
`completion`=100), as in the test runner's milestone object. -/
structure Milestones where
  fish : Bool
  waves : Bool
  completion : Bool
deriving Repr, DecidableEq

/-- All milestones start unachieved. -/
def Milestones.init : Milestones :=
  { fish := false, waves := false, completion := false }

/-- The milestone-evaluation loop of `testMilestoneThresholds`: walk the
milestone entries in insertion order (`fish`, `waves`, `completion`), and
for each one not yet achieved whose threshold is ≤ the level, mark it
achieved and append its name to the result. -/
def evaluateMilestones (ms : Milestones) (level : ℚ) :
    List String × Milestones :=
  let fishHit : Bool := !ms.fish && decide (30 ≤ level)
  let wavesHit : Bool := !ms.waves && decide (70 ≤ level)
  let compHit : Bool := !ms.completion && decide (100 ≤ level)
  ((if fishHit then ["fish"] else []) ++
     (if wavesHit then ["waves"] else []) ++
     (if compHit then ["completion"] else []),
   { fish := ms.fish || fishHit
     waves := ms.waves || wavesHit
     completion := ms.completion || compHit })

/-- A JSON value, for the persisted progress record. -/
inductive JValue where
  | null : JValue
  | bool : Bool → JValue
  | num : ℚ → JValue
  | str : String → JValue
  | arr : List JValue → JValue
  | obj : List (String × JValue) → JValue

/-- The persisted record `{ waterLevel, milestones: {fish, waves,
completion} }`. -/
structure ProgressState where
  waterLevel : ℚ
  milestones : Milestones
deriving Repr, DecidableEq

/-- Modelled from the spec: the Progress Manager's serializer (the Progress
Manager implementation itself is not among the repository sources; only
localStorage round-trip tests exercise it). Serializes
`{waterLevel, milestones}` as a JSON object. -/
def encodeProgress (st : ProgressState) : JValue :=
  .obj [("waterLevel", .num st.waterLevel),
        ("milestones", .obj [("fish", .bool st.milestones.fish),
                             ("waves", .bool st.milestones.waves),
                             ("completion", .bool st.milestones.completion)])]

/-- Field lookup on a JSON object; `none` on any other value. -/
def jField (k : String) : JValue → Option JValue
  | .obj fields => fields.lookup k
  | _ => none

/-- A JSON number, or `none`. -/
def jNum : JValue → Option ℚ
  | .num q => some q
  | _ => none

/-- A JSON boolean, or `none`. -/
def jBool : JValue → Option Bool
  | .bool b => some b
  | _ => none

/-- Modelled from the spec: the Progress Manager's deserializer — `none`
(JavaScript `null`) on any value not of the persisted record's shape. -/
def decodeProgress (v : JValue) : Option ProgressState := do
  let wl ← (jField "waterLevel" v).bind jNum
  let msv ← jField "milestones" v
  let f ← (jField "fish" msv).bind jBool
  let w ← (jField "waves" msv).bind jBool
  let c ← (jField "completion" msv).bind jBool
  pure { waterLevel := wl, milestones := { fish := f, waves := w, completion := c } }

/-- Modelled from the spec: `save(state)` writes the whole serialized record
under the fixed storage key (the store is the optional value under that
key). -/
def saveProgress (st : ProgressState) : Option JValue :=
  some (encodeProgress st)

/-- Modelled from the spec: `load()` returns `null` (here `none`) on a
missing key or on a record that fails to deserialize, and the parsed state
otherwise — it never throws. -/
def loadProgress (store : Option JValue) : Option ProgressState :=
  store.bind decodeProgress

/-- A splash-producing engine state used in concrete update scenarios: one
splash with the default jitter draws (maxRadius 30, expansionSpeed 50). -/
def engineOneSplash : Engine :=
  { Engine.init with splashEffects := [newSplash 0 0 0 0] }

/-- A droplet at rest at the origin. -/
def dropletStill : Droplet :=
  { x := 0, y := 0, velocityX := 0, velocityY := 0, size := 4, life := 1
    splashed := false }

/-- An engine already holding the maximum number of droplets. -/
def engineFullDroplets : Engine :=
  { Engine.init with droplets := List.replicate 10 dropletStill }

/-- An engine already holding the maximum number of splash effects. -/
def engineFullSplashes : Engine :=
  { Engine.init with splashEffects := List.replicate 5 (newSplash 0 0 0 0) }

/-- A scaler already at its performance floor. -/
def scalerAtFloor : PerformanceScaler :=
  { performanceLevel := 3/10
    lastAdjustment := 0
    adjustmentCooldown := 2000
    minPerformanceLevel := 3/10 }

/-- A fresh scaler (level 1) whose last adjustment was at time 0. -/
def scalerFresh : PerformanceScaler :=
  { performanceLevel := 1
    lastAdjustment := 0
    adjustmentCooldown := 2000
    minPerformanceLevel := 3/10 }

/-- A frame-rate monitor whose rolling mean reads 15 fps. -/
def monitorFps15 : FrameRateMonitor :=
  { frameCount := 0
    lastTime := 0
    fps := 15
    fpsHistory := []
    maxHistoryLength := 60 }

/-!
Lemmas about the embedding, followed by the claim theorems.
-/

theorem jsMin_eq_min (a b : ℚ) : jsMin a b = min a b := by
  rw [jsMin, min_def]

theorem jsMax_eq_max (a b : ℚ) : jsMax a b = max a b := by
  rw [jsMax, max_def]

theorem applyCollision_le_100 (incr wl : ℚ) : applyCollision incr wl ≤ 100 := by
  rw [applyCollision, jsMin_eq_min]
  exact min_le_left _ _

theorem le_applyCollision (incr wl : ℚ) (h : wl ≤ 100) (hi : 0 ≤ incr) :
    wl ≤ applyCollision incr wl := by
  rw [applyCollision, jsMin_eq_min]
  exact le_min h (by linarith)

theorem applyCollision_nonneg (incr wl : ℚ) (h : 0 ≤ wl) (hi : 0 ≤ incr) :
    0 ≤ applyCollision incr wl := by
  rw [applyCollision, jsMin_eq_min]
  exact le_min (by norm_num) (by linarith)

/-- The state triple produced by one droplet step: either untouched, or the
collision update (raised water level, appended splash, next random draw). -/
theorem stepDroplet_state (dt g incr : ℚ) (cap : ℕ) (rng : ℕ → ℚ × ℚ)
    (d : Droplet) (st : ℚ × List Splash × ℕ) :
    (stepDroplet dt g incr cap rng d st).2 =
      if decide (400 - st.1 / 100 * 300 ≤ d.y + (d.velocityY + g * dt) * dt)
          && !d.splashed then
        (applyCollision incr st.1,
         pushSplash cap st.2.1 (d.x + d.velocityX * dt)
           (400 - st.1 / 100 * 300) (rng st.2.2).1 (rng st.2.2).2,
         st.2.2 + 1)
      else st := by
  simp only [stepDroplet]
  split <;> rfl

theorem stepDroplet_waterLevel_cases (dt g incr : ℚ) (cap : ℕ)
    (rng : ℕ → ℚ × ℚ) (d : Droplet) (st : ℚ × List Splash × ℕ) :
    (stepDroplet dt g incr cap rng d st).2.1 = st.1 ∨
      (stepDroplet dt g incr cap rng d st).2.1 = applyCollision incr st.1 := by
  rw [stepDroplet_state]
  split
  · exact Or.inr rfl
  · exact Or.inl rfl

theorem stepDroplet_waterLevel_splashed (dt g incr : ℚ) (cap : ℕ)
    (rng : ℕ → ℚ × ℚ) (d : Droplet) (st : ℚ × List Splash × ℕ)
    (h : d.splashed = true) :
    (stepDroplet dt g incr cap rng d st).2.1 = st.1 := by
  rw [stepDroplet_state, h]
  simp

theorem stepDroplet_fst_length (dt g incr : ℚ) (cap : ℕ) (rng : ℕ → ℚ × ℚ)
    (d : Droplet) (st : ℚ × List Splash × ℕ) :
    (stepDroplet dt g incr cap rng d st).1.length ≤ 1 := by
  simp only [stepDroplet]
  split <;> simp

theorem stepDroplets_waterLevel_cases (dt g incr : ℚ) (cap : ℕ)
    (rng : ℕ → ℚ × ℚ) (hi : 0 ≤ incr) :
    ∀ (l : List Droplet) (st : ℚ × List Splash × ℕ),
      (0 ≤ st.1 → 0 ≤ (stepDroplets dt g incr cap rng l st).2.1) ∧
      (st.1 ≤ 100 →
        st.1 ≤ (stepDroplets dt g incr cap rng l st).2.1 ∧
          (stepDroplets dt g incr cap rng l st).2.1 ≤ 100) := by
  intro l
  induction l with
  | nil => intro st; exact ⟨fun h => h, fun h => ⟨le_refl _, h⟩⟩
  | cons d rest ih =>
    intro st
    have hrest := ih st
    rcases stepDroplet_waterLevel_cases dt g incr cap rng d
        (stepDroplets dt g incr cap rng rest st).2 with hcase | hcase <;>
      simp only [stepDroplets, hcase] <;>
      constructor
    · exact fun h => (hrest.1 h)
    · exact fun h => hrest.2 h
    · intro h
      exact applyCollision_nonneg _ _ (hrest.1 h) hi
    · intro h
      refine ⟨le_trans (hrest.2 h).1 (le_applyCollision _ _ (hrest.2 h).2 hi), ?_⟩
      exact applyCollision_le_100 _ _

theorem stepDroplets_fst_length (dt g incr : ℚ) (cap : ℕ) (rng : ℕ → ℚ × ℚ) :
    ∀ (l : List Droplet) (st : ℚ × List Splash × ℕ),
      (stepDroplets dt g incr cap rng l st).1.length ≤ l.length := by
  intro l
  induction l with
  | nil => intro st; simp [stepDroplets]
  | cons d rest ih =>
    intro st
    have h1 := stepDroplet_fst_length dt g incr cap rng d
      (stepDroplets dt g incr cap rng rest st).2
    have h2 := ih st
    simp only [stepDroplets, List.length_append, List.length_cons]
    omega

theorem update_waterLevel_def (e : Engine) (dt : ℚ) (rng : ℕ → ℚ × ℚ) :
    (e.update dt rng).waterLevel =
      (stepDroplets dt e.gravity e.dropletIncrement e.maxSplashEffects rng
        e.droplets (e.waterLevel, e.splashEffects, 0)).2.1 := rfl

theorem update_waterLevel_nonneg (e : Engine) (dt : ℚ) (rng : ℕ → ℚ × ℚ)
    (hi : 0 ≤ e.dropletIncrement) (h0 : 0 ≤ e.waterLevel) :
    0 ≤ (e.update dt rng).waterLevel := by
  rw [update_waterLevel_def]
  exact (stepDroplets_waterLevel_cases dt e.gravity e.dropletIncrement
    e.maxSplashEffects rng hi e.droplets (e.waterLevel, e.splashEffects, 0)).1 h0

theorem update_waterLevel_mono (e : Engine) (dt : ℚ) (rng : ℕ → ℚ × ℚ)
    (hi : 0 ≤ e.dropletIncrement) (h1 : e.waterLevel ≤ 100) :
    e.waterLevel ≤ (e.update dt rng).waterLevel ∧
      (e.update dt rng).waterLevel ≤ 100 := by
  rw [update_waterLevel_def]
  exact (stepDroplets_waterLevel_cases dt e.gravity e.dropletIncrement
    e.maxSplashEffects rng hi e.droplets (e.waterLevel, e.splashEffects, 0)).2 h1

/-- C1: over any `update` tick the water level stays inside `[0, 100]` and
never decreases; each single droplet step either leaves the level alone or
raises it by the fixed increment 0.8 clamped at 100; and a droplet whose
`splashed` flag is already set never changes the level when re-ticked. -/
theorem C1_water_level_invariant (e : Engine) (dt : ℚ) (rng : ℕ → ℚ × ℚ)
    (d : Droplet) (st : ℚ × List Splash × ℕ)
    (hinc : e.dropletIncrement = 4/5) (h0 : 0 ≤ e.waterLevel)
    (h1 : e.waterLevel ≤ 100) :
    (0 ≤ (e.update dt rng).waterLevel ∧ (e.update dt rng).waterLevel ≤ 100) ∧
    e.waterLevel ≤ (e.update dt rng).waterLevel ∧
    ((stepDroplet dt e.gravity e.dropletIncrement e.maxSplashEffects rng
        d st).2.1 = st.1 ∨
      (stepDroplet dt e.gravity e.dropletIncrement e.maxSplashEffects rng
        d st).2.1 = min 100 (st.1 + 4/5)) ∧
    (d.splashed = true →
      (stepDroplet dt e.gravity e.dropletIncrement e.maxSplashEffects rng
        d st).2.1 = st.1) := by
  have hi : (0:ℚ) ≤ e.dropletIncrement := by rw [hinc]; norm_num
  refine ⟨⟨update_waterLevel_nonneg e dt rng hi h0,
      (update_waterLevel_mono e dt rng hi h1).2⟩,
    (update_waterLevel_mono e dt rng hi h1).1, ?_, ?_⟩
  · rcases stepDroplet_waterLevel_cases dt e.gravity e.dropletIncrement
        e.maxSplashEffects rng d st with hc | hc
    · exact Or.inl hc
    · refine Or.inr ?_
      rw [hc, hinc, applyCollision, jsMin_eq_min]
  · exact stepDroplet_waterLevel_splashed dt e.gravity e.dropletIncrement
      e.maxSplashEffects rng d st

/-- Witness for C1 at the freshly constructed engine, one already-splashed
droplet and the empty threaded state. -/
theorem C1_water_level_invariant_witness :
    (0 ≤ (Engine.init.update 1 rngZero).waterLevel ∧
      (Engine.init.update 1 rngZero).waterLevel ≤ 100) ∧
    Engine.init.waterLevel ≤ (Engine.init.update 1 rngZero).waterLevel ∧
    ((stepDroplet 1 Engine.init.gravity Engine.init.dropletIncrement
        Engine.init.maxSplashEffects rngZero ⟨0, 0, 0, 0, 4, 1, true⟩
        (0, [], 0)).2.1 = (0, ([] : List Splash), 0).1 ∨
      (stepDroplet 1 Engine.init.gravity Engine.init.dropletIncrement
        Engine.init.maxSplashEffects rngZero ⟨0, 0, 0, 0, 4, 1, true⟩
        (0, [], 0)).2.1 = min 100 ((0, ([] : List Splash), 0).1 + 4/5)) ∧
    (Droplet.splashed ⟨0, 0, 0, 0, 4, 1, true⟩ = true →
      (stepDroplet 1 Engine.init.gravity Engine.init.dropletIncrement
        Engine.init.maxSplashEffects rngZero ⟨0, 0, 0, 0, 4, 1, true⟩
        (0, [], 0)).2.1 = (0, ([] : List Splash), 0).1) :=
  C1_water_level_invariant Engine.init 1 rngZero ⟨0, 0, 0, 0, 4, 1, true⟩
    (0, [], 0) rfl (by norm_num [Engine.init]) (by norm_num [Engine.init])

theorem iterate_applyCollision (n : ℕ) :
    (applyCollision (4/5))^[n] 0 = min 100 ((n : ℚ) * (4/5)) := by
  induction n with
  | zero =>
    simp only [Function.iterate_zero, id_eq, Nat.cast_zero, zero_mul]
    exact (min_eq_right (by norm_num)).symm
  | succ n ih =>
    rw [Function.iterate_succ_apply', ih, applyCollision, jsMin_eq_min]
    push_cast
    rcases le_total ((n : ℚ) * (4/5)) 100 with h | h
    · rw [min_eq_right h]
      congr 1
      ring
    · rw [min_eq_left h, min_eq_left (by linarith), min_eq_left (by nlinarith)]

/-- C2: starting from level 0, n collision increments yield exactly
`min(100, n · 0.8)`; 125 collisions reach exactly 100; further collisions
leave the level at 100. -/
theorem C2_collision_count (n m : ℕ) :
    (applyCollision (4/5))^[n] 0 = min 100 ((n : ℚ) * (4/5)) ∧
    (applyCollision (4/5))^[125] 0 = 100 ∧
    (applyCollision (4/5))^[125 + m] 0 = 100 := by
  refine ⟨iterate_applyCollision n, ?_, ?_⟩
  · rw [iterate_applyCollision]
    norm_num
  · rw [iterate_applyCollision]
    rw [min_eq_left (by push_cast; nlinarith)]

/-- C3: a spawn at or above the droplet cap returns `false` and leaves the
engine untouched; below the cap it appends exactly one droplet at `(x, y)`
with zero vertical velocity, jittered horizontal velocity in `[-1, 1)`,
full life and `splashed = false`, returning `true`; both spawning and
ticking keep the droplet count at or below the cap. -/
theorem C3_spawn_cap (e : Engine) (x y r1 r2 dt : ℚ) (rng : ℕ → ℚ × ℚ) :
    (e.maxDroplets ≤ e.droplets.length → e.addDroplet x y r1 r2 = (e, false)) ∧
    (e.droplets.length < e.maxDroplets →
      (e.addDroplet x y r1 r2).2 = true ∧
      (e.addDroplet x y r1 r2).1 =
        { e with droplets := e.droplets ++
            [{ x := x, y := y, velocityX := (r1 - 1/2) * 2, velocityY := 0,
               size := 4 + r2 * 2, life := 1, splashed := false }] }) ∧
    (e.droplets.length ≤ e.maxDroplets →
      (e.addDroplet x y r1 r2).1.droplets.length ≤ e.maxDroplets) ∧
    ((e.update dt rng).droplets.length ≤ e.droplets.length) ∧
    (0 ≤ r1 → r1 < 1 → -1 ≤ (r1 - 1/2) * 2 ∧ (r1 - 1/2) * 2 < 1) := by
  refine ⟨?_, ?_, ?_, ?_, ?_⟩
  · intro h
    rw [Engine.addDroplet, if_pos h]
  · intro h
    rw [Engine.addDroplet, if_neg (not_le.mpr h)]
    exact ⟨rfl, rfl⟩
  · intro h
    by_cases hc : e.maxDroplets ≤ e.droplets.length
    · rw [Engine.addDroplet, if_pos hc]
      exact h
    · rw [Engine.addDroplet, if_neg hc]
      simp only [List.length_append, List.length_cons, List.length_nil]
      omega
  · exact stepDroplets_fst_length dt e.gravity e.dropletIncrement
      e.maxSplashEffects rng e.droplets (e.waterLevel, e.splashEffects, 0)
  · intro ha hb
    constructor <;> nlinarith

/-- Witness for C3: the cap branch on a full engine, and the append branch
plus the velocity-jitter bounds on a fresh engine. -/
theorem C3_spawn_cap_witness :
    engineFullDroplets.addDroplet 1 2 (1/2) 0 = (engineFullDroplets, false) ∧
    (Engine.init.addDroplet 1 2 (1/2) 0).2 = true ∧
    (Engine.init.addDroplet 1 2 (1/2) 0).1 =
      { Engine.init with droplets := Engine.init.droplets ++
          [{ x := 1, y := 2, velocityX := ((1/2) - 1/2) * 2, velocityY := 0,
             size := 4 + 0 * 2, life := 1, splashed := false }] } ∧
    (Engine.init.update 1 rngZero).droplets.length ≤
      Engine.init.droplets.length ∧
    (-1 ≤ ((1/2 : ℚ) - 1/2) * 2 ∧ ((1/2 : ℚ) - 1/2) * 2 < 1) := by
  have hfull := C3_spawn_cap engineFullDroplets 1 2 (1/2) 0 1 rngZero
  have hfresh := C3_spawn_cap Engine.init 1 2 (1/2) 0 1 rngZero
  refine ⟨hfull.1 (by simp [engineFullDroplets, Engine.init]), ?_, ?_,
    hfresh.2.2.2.1, hfresh.2.2.2.2 (by norm_num) (by norm_num)⟩
  · exact (hfresh.2.1 (by simp [Engine.init])).1
  · exact (hfresh.2.1 (by simp [Engine.init])).2

theorem evaluateMilestones_fst_eq_nil (ms : Milestones) (level : ℚ)
    (h30 : 30 ≤ level → ms.fish = true) (h70 : 70 ≤ level → ms.waves = true)
    (h100 : 100 ≤ level → ms.completion = true) :
    (evaluateMilestones ms level).1 = [] := by
  by_cases a : (30:ℚ) ≤ level <;> by_cases b : (70:ℚ) ≤ level <;>
    by_cases c : (100:ℚ) ≤ level <;>
    simp_all [evaluateMilestones]

/-- C4: milestone evaluation is idempotent (a second evaluation at the same
level, or at any higher level crossing no new threshold, reports nothing);
a milestone's achieved flag after evaluation is its old flag or-ed with
"threshold ≤ level"; evaluating a fresh state at level 100 reports
`["fish", "waves", "completion"]`; and every report is a sublist of that
ascending-threshold order. -/
theorem C4_milestones (ms : Milestones) (level level2 : ℚ) :
    (evaluateMilestones (evaluateMilestones ms level).2 level).1 = [] ∧
    ((evaluateMilestones ms level).2.fish
        = (ms.fish || decide (30 ≤ level)) ∧
      (evaluateMilestones ms level).2.waves
        = (ms.waves || decide (70 ≤ level)) ∧
      (evaluateMilestones ms level).2.completion
        = (ms.completion || decide (100 ≤ level))) ∧
    ((30 ≤ level2 → 30 ≤ level) → (70 ≤ level2 → 70 ≤ level) →
      (100 ≤ level2 → 100 ≤ level) →
      (evaluateMilestones (evaluateMilestones ms level).2 level2).1 = []) ∧
    (evaluateMilestones Milestones.init 100).1
      = ["fish", "waves", "completion"] ∧
    (evaluateMilestones ms level).1.Sublist ["fish", "waves", "completion"] := by
  refine ⟨?_, ⟨?_, ?_, ?_⟩, ?_, ?_, ?_⟩
  · refine evaluateMilestones_fst_eq_nil _ _ ?_ ?_ ?_ <;> intro h <;>
      simp [evaluateMilestones, h]
  · cases hf : ms.fish <;> simp [evaluateMilestones, hf]
  · cases hw : ms.waves <;> simp [evaluateMilestones, hw]
  · cases hc : ms.completion <;> simp [evaluateMilestones, hc]
  · intro i30 i70 i100
    refine evaluateMilestones_fst_eq_nil _ _ ?_ ?_ ?_ <;> intro h
    · simp [evaluateMilestones, i30 h]
    · simp [evaluateMilestones, i70 h]
    · simp [evaluateMilestones, i100 h]
  · norm_num [evaluateMilestones, Milestones.init]
  · simp only [evaluateMilestones]
    split_ifs <;> simp

/-- Witness for C4 at a concrete state and levels (first evaluation at 50,
re-evaluation at 50 and at 60, which crosses no new threshold). -/
theorem C4_milestones_witness :
    (evaluateMilestones (evaluateMilestones Milestones.init 50).2 50).1
      = [] ∧
    (evaluateMilestones (evaluateMilestones Milestones.init 50).2 60).1
      = [] ∧
    (evaluateMilestones Milestones.init 50).1.Sublist
      ["fish", "waves", "completion"] := by
  have h := C4_milestones Milestones.init 50 60
  exact ⟨h.1,
    h.2.2.1 (fun _ => by norm_num) (fun hh => absurd hh (by norm_num))
      (fun hh => absurd hh (by norm_num)),
    h.2.2.2.2⟩

/-- C5: a splash created at or above the cap evicts the oldest splash
(index 0) before appending the new one; the splash count never exceeds the
cap; and creating six splashes from an empty engine (cap 5) leaves exactly
splashes two through six, in order. -/
theorem C5_splash_fifo (e : Engine) (x y r1 r2 : ℚ) :
    (e.maxSplashEffects ≤ e.splashEffects.length →
      (e.createSplash x y r1 r2).splashEffects =
        e.splashEffects.tail ++ [newSplash x y r1 r2]) ∧
    (1 ≤ e.maxSplashEffects → e.splashEffects.length ≤ e.maxSplashEffects →
      (e.createSplash x y r1 r2).splashEffects.length ≤
        e.maxSplashEffects) ∧
    ((((((Engine.init.createSplash 1 0 0 0).createSplash 2 0 0 0).createSplash
          3 0 0 0).createSplash 4 0 0 0).createSplash 5 0 0 0).createSplash
          6 0 0 0).splashEffects.map (fun s => s.x) = [2, 3, 4, 5, 6] := by
  refine ⟨?_, ?_, ?_⟩
  · intro h
    simp [Engine.createSplash, pushSplash, if_pos h]
  · intro h1 h2
    by_cases hc : e.maxSplashEffects ≤ e.splashEffects.length
    · simp only [Engine.createSplash, pushSplash, if_pos hc,
        List.length_append, List.length_tail, List.length_cons,
        List.length_nil]
      omega
    · simp only [Engine.createSplash, pushSplash, if_neg hc,
        List.length_append, List.length_cons, List.length_nil]
      omega
  · norm_num [Engine.createSplash, pushSplash, newSplash, Engine.init]

/-- Witness for C5 on an engine whose splash list is at the cap. -/
theorem C5_splash_fifo_witness :
    (engineFullSplashes.createSplash 9 9 0 0).splashEffects =
      engineFullSplashes.splashEffects.tail ++ [newSplash 9 9 0 0] ∧
    (engineFullSplashes.createSplash 9 9 0 0).splashEffects.length ≤
      engineFullSplashes.maxSplashEffects := by
  have h := C5_splash_fifo engineFullSplashes 9 9 0 0
  exact ⟨h.1 (by simp [engineFullSplashes, Engine.init]),
    h.2.1 (by norm_num [engineFullSplashes, Engine.init])
      (by simp [engineFullSplashes, Engine.init])⟩

theorem monitorFps15_getCurrentFps : monitorFps15.getCurrentFps = 15 := by
  simp only [FrameRateMonitor.getCurrentFps, monitorFps15]
  rw [show (15:ℚ) + 1/2 = 31/2 by norm_num]
  rw [Int.floor_eq_iff]
  norm_num

/-- Counterexample to C6: (a) with the level already at the floor 0.3, a
call after the cooldown reading fps 15 returns the floor again — it does
not strictly decrease the level; (b) two calls 500 ms apart (at 1600 and
2100, cooldown 2000, last adjustment 0) return 1 and then 3/5 — not
identical levels — because the first call was itself inside the cooldown
window and so did not restart it. -/
theorem C6_adjust_performance_counterexample :
    monitorFps15.getCurrentFps = 15 ∧
    scalerAtFloor.adjustmentCooldown ≤ 2000 - scalerAtFloor.lastAdjustment ∧
    (scalerAtFloor.adjustPerformance 2000 monitorFps15).2 =
      scalerAtFloor.performanceLevel ∧
    ¬ ((scalerAtFloor.adjustPerformance 2000 monitorFps15).2 <
        scalerAtFloor.performanceLevel) ∧
    (scalerFresh.adjustPerformance 1600 monitorFps15).2 = 1 ∧
    ((scalerFresh.adjustPerformance 1600 monitorFps15).1.adjustPerformance
        2100 monitorFps15).2 = 3/5 ∧
    ((3:ℚ)/5 ≠ 1) := by
  refine ⟨monitorFps15_getCurrentFps, by norm_num [scalerAtFloor], ?_, ?_,
    ?_, ?_, by norm_num⟩ <;>
    norm_num [PerformanceScaler.adjustPerformance, scalerAtFloor,
      scalerFresh, monitorFps15_getCurrentFps, jsMax, jsMin]

/-- C6 as amended: `adjustPerformance` is a no-op inside the cooldown
window; two calls less than a cooldown apart return identical levels
whenever the first call itself performed an adjustment; past the cooldown
it applies the fps ladder (< 20 → ×0.6, < 30 → ×0.8, > 50 below level 1 →
×1.1) with the result confined to `[minPerformanceLevel, 1]`; and a
post-cooldown call reading fps 15 strictly decreases the level whenever
the level sits strictly above the floor. -/
theorem C6_adjust_performance_amended (s : PerformanceScaler)
    (now delta : ℚ) (m m2 : FrameRateMonitor) :
    (now - s.lastAdjustment < s.adjustmentCooldown →
      s.adjustPerformance now m = (s, s.performanceLevel)) ∧
    (¬ now - s.lastAdjustment < s.adjustmentCooldown → 0 ≤ delta →
      delta < s.adjustmentCooldown →
      (s.adjustPerformance now m).1.adjustPerformance (now + delta) m2 =
        ((s.adjustPerformance now m).1, (s.adjustPerformance now m).2)) ∧
    (¬ now - s.lastAdjustment < s.adjustmentCooldown →
      (s.adjustPerformance now m).2 =
        (if m.getCurrentFps < 20 then
          max s.minPerformanceLevel (s.performanceLevel * (3/5))
        else if m.getCurrentFps < 30 then
          max s.minPerformanceLevel (s.performanceLevel * (4/5))
        else if 50 < m.getCurrentFps ∧ s.performanceLevel < 1 then
          min 1 (s.performanceLevel * (11/10))
        else s.performanceLevel)) ∧
    (¬ now - s.lastAdjustment < s.adjustmentCooldown →
      0 ≤ s.minPerformanceLevel →
      s.minPerformanceLevel ≤ s.performanceLevel → s.performanceLevel ≤ 1 →
      s.minPerformanceLevel ≤ (s.adjustPerformance now m).2 ∧
        (s.adjustPerformance now m).2 ≤ 1) ∧
    (¬ now - s.lastAdjustment < s.adjustmentCooldown →
      m.getCurrentFps = 15 → 0 ≤ s.minPerformanceLevel →
      s.minPerformanceLevel < s.performanceLevel →
      (s.adjustPerformance now m).2 < s.performanceLevel) := by
  refine ⟨?_, ?_, ?_, ?_, ?_⟩
  · intro h
    rw [PerformanceScaler.adjustPerformance, if_pos h]
  · intro h hd1 hd2
    simp only [PerformanceScaler.adjustPerformance, if_neg h]
    rw [if_pos (by linarith : now + delta - now < s.adjustmentCooldown)]
  · intro h
    simp only [PerformanceScaler.adjustPerformance, if_neg h,
      jsMax_eq_max, jsMin_eq_min]
  · intro h h0 h1 h2
    simp only [PerformanceScaler.adjustPerformance, if_neg h,
      jsMax_eq_max, jsMin_eq_min]
    split_ifs with hf1 hf2 hf3
    · exact ⟨le_max_left _ _,
        max_le (by linarith) (by nlinarith)⟩
    · exact ⟨le_max_left _ _,
        max_le (by linarith) (by nlinarith)⟩
    · exact ⟨le_min (by linarith) (by nlinarith), min_le_left _ _⟩
    · exact ⟨h1, h2⟩
  · intro h hf h0 h1
    simp only [PerformanceScaler.adjustPerformance, if_neg h, hf,
      jsMax_eq_max]
    rw [if_pos (by norm_num : (15:ℤ) < 20)]
    exact max_lt h1 (by nlinarith)

/-- Witness for C6 (amended): the fresh scaler, a no-op call at time 100,
and post-cooldown calls at time 2500 with the fps-15 monitor. -/
theorem C6_adjust_performance_amended_witness :
    scalerFresh.adjustPerformance 100 monitorFps15 =
      (scalerFresh, scalerFresh.performanceLevel) ∧
    (scalerFresh.adjustPerformance 2500 monitorFps15).1.adjustPerformance
        (2500 + 500) monitorFps15 =
      ((scalerFresh.adjustPerformance 2500 monitorFps15).1,
        (scalerFresh.adjustPerformance 2500 monitorFps15).2) ∧
    (scalerFresh.minPerformanceLevel ≤
        (scalerFresh.adjustPerformance 2500 monitorFps15).2 ∧
      (scalerFresh.adjustPerformance 2500 monitorFps15).2 ≤ 1) ∧
    (scalerFresh.adjustPerformance 2500 monitorFps15).2 <
      scalerFresh.performanceLevel := by
  have h1 := C6_adjust_performance_amended scalerFresh 100 500 monitorFps15
    monitorFps15
  have h2 := C6_adjust_performance_amended scalerFresh 2500 500 monitorFps15
    monitorFps15
  refine ⟨h1.1 (by norm_num [scalerFresh]),
    h2.2.1 (by norm_num [scalerFresh]) (by norm_num)
      (by norm_num [scalerFresh]),
    h2.2.2.2.1 (by norm_num [scalerFresh]) (by norm_num [scalerFresh])
      (by norm_num [scalerFresh]) (by norm_num [scalerFresh]),
    h2.2.2.2.2 (by norm_num [scalerFresh]) monitorFps15_getCurrentFps
      (by norm_num [scalerFresh]) (by norm_num [scalerFresh])⟩

theorem stepSplash_eq_some {dt : ℚ} {s s' : Splash}
    (h : stepSplash dt s = some s') :
    s'.radius = s.radius + s.expansionSpeed * dt ∧
    s'.opacity = s.opacity - dt * (2/1000) ∧
    s'.life = s.life - dt * (1/1000) ∧
    s'.maxRadius = s.maxRadius ∧
    s'.expansionSpeed = s.expansionSpeed := by
  simp only [stepSplash] at h
  split_ifs at h with hc
  rw [Option.some_inj] at h
  subst h
  exact ⟨rfl, rfl, rfl, rfl, rfl⟩

theorem stepSplash_eq_none (dt : ℚ) (s : Splash) :
    stepSplash dt s = none ↔
      (s.life - dt * (1/1000) ≤ 0 ∨ s.opacity - dt * (2/1000) ≤ 0) := by
  simp only [stepSplash]
  split_ifs with hc
  · exact iff_of_true rfl hc
  · exact iff_of_false (by simp) hc

/-- Counterexample to C7: one update tick of 1 ms on a fresh splash (radius
2, maxRadius 30, expansionSpeed 50) leaves a surviving splash of radius 52,
strictly above its maxRadius — the code never caps the radius at
`maxRadius`. -/
theorem C7_splash_radius_counterexample :
    (engineOneSplash.update 1 rngZero).splashEffects.map
      (fun s => (s.radius, s.maxRadius)) = [(52, 30)] ∧
    ((30:ℚ) < 52) := by
  constructor
  · norm_num [engineOneSplash, Engine.update, Engine.init, stepDroplets,
      stepSplash, newSplash, List.filterMap_cons]
  · norm_num

/-- C7 as amended: during every update each surviving splash's radius grows
by `expansionSpeed · deltaTime` with no cap at `maxRadius` (the radius may
exceed `maxRadius`), its opacity and life decay linearly with elapsed time,
and a splash is removed exactly when the decayed life ≤ 0 or the decayed
opacity ≤ 0. -/
theorem C7_splash_update_amended (e : Engine) (dt : ℚ) (rng : ℕ → ℚ × ℚ)
    (s s' : Splash) :
    (stepSplash dt s = some s' →
      s'.radius = s.radius + s.expansionSpeed * dt ∧
      s'.opacity = s.opacity - dt * (2/1000) ∧
      s'.life = s.life - dt * (1/1000) ∧
      s'.maxRadius = s.maxRadius) ∧
    (stepSplash dt s = none ↔
      (s.life - dt * (1/1000) ≤ 0 ∨ s.opacity - dt * (2/1000) ≤ 0)) ∧
    (e.droplets = [] →
      (e.update dt rng).splashEffects =
        e.splashEffects.filterMap (stepSplash dt)) := by
  refine ⟨?_, stepSplash_eq_none dt s, ?_⟩
  · intro h
    have hf := stepSplash_eq_some h
    exact ⟨hf.1, hf.2.1, hf.2.2.1, hf.2.2.2.1⟩
  · intro h
    simp only [Engine.update, h, stepDroplets]

/-- Witness for C7 (amended): the fresh splash stepped by 1 ms, and the
one-splash engine's update compared against the splash-loop filter. -/
theorem C7_splash_update_amended_witness :
    ((⟨0, 0, 52, 30, 50, 399/500, 999/1000⟩ : Splash).radius =
        (newSplash 0 0 0 0).radius + (newSplash 0 0 0 0).expansionSpeed * 1 ∧
      (⟨0, 0, 52, 30, 50, 399/500, 999/1000⟩ : Splash).opacity =
        (newSplash 0 0 0 0).opacity - 1 * (2/1000) ∧
      (⟨0, 0, 52, 30, 50, 399/500, 999/1000⟩ : Splash).life =
        (newSplash 0 0 0 0).life - 1 * (1/1000) ∧
      (⟨0, 0, 52, 30, 50, 399/500, 999/1000⟩ : Splash).maxRadius =
        (newSplash 0 0 0 0).maxRadius) ∧
    (engineOneSplash.update 1 rngZero).splashEffects =
      engineOneSplash.splashEffects.filterMap (stepSplash 1) := by
  have h := C7_splash_update_amended engineOneSplash 1 rngZero
    (newSplash 0 0 0 0) ⟨0, 0, 52, 30, 50, 399/500, 999/1000⟩
  exact ⟨h.1 (by norm_num [stepSplash, newSplash]), h.2.2 rfl⟩

theorem pushSplash_mem {cap : ℕ} {splashes : List Splash}
    {x y rMax rSpeed : ℚ} {s : Splash}
    (h : s ∈ pushSplash cap splashes x y rMax rSpeed) :
    s ∈ splashes ∨ s = newSplash x y rMax rSpeed := by
  simp only [pushSplash] at h
  rcases List.mem_append.mp h with h | h
  · split_ifs at h with hc
    · exact Or.inl ((List.tail_sublist splashes).subset h)
    · exact Or.inl h
  · simp only [List.mem_singleton] at h
    exact Or.inr h

theorem stepDroplets_splashes_mem (dt g incr : ℚ) (cap : ℕ)
    (rng : ℕ → ℚ × ℚ) :
    ∀ (l : List Droplet) (st : ℚ × List Splash × ℕ) (s : Splash),
      s ∈ (stepDroplets dt g incr cap rng l st).2.2.1 →
      s ∈ st.2.1 ∨ ∃ x y k, s = newSplash x y (rng k).1 (rng k).2 := by
  intro l
  induction l with
  | nil => intro st s h; exact Or.inl h
  | cons d rest ih =>
    intro st s h
    simp only [stepDroplets] at h
    rw [stepDroplet_state] at h
    split at h
    · simp only at h
      rcases pushSplash_mem h with h' | h'
      · exact ih st s h'
      · exact Or.inr ⟨_, _, _, h'⟩
    · exact ih st s h

/-- Counterexample to C8: the engine does not clamp `deltaTime` internally.
A 100 ms tick grows the surviving splash's radius to `2 + 50·100 = 5002`,
far beyond `2 + 80·33 = 2642`, the largest one-tick radius any engine
clamping `deltaTime` at the spec's sane maximum of 33 ms could produce even
at the maximal expansion speed 80. -/
theorem C8_raw_deltatime_counterexample :
    (engineOneSplash.update 100 rngZero).splashEffects.map
      (fun s => s.radius) = [5002] ∧
    ((2:ℚ) + 80 * 33 < 5002) := by
  constructor
  · norm_num [engineOneSplash, Engine.update, Engine.init, stepDroplets,
      stepSplash, newSplash, List.filterMap_cons]
  · norm_num

/-- C8 as amended: for every `deltaTime ≥ 0` (including 0 and arbitrarily
large values) `update` is total and numerically stable — the water level
stays in `[0, 100]` and no splash radius goes negative — but the engine
does not clamp `deltaTime` internally: surviving splashes grow by
`expansionSpeed` times the raw `deltaTime`, so clamping is the caller's
responsibility. -/
theorem C8_update_safety_amended (e : Engine) (dt : ℚ) (rng : ℕ → ℚ × ℚ)
    (hinc : 0 ≤ e.dropletIncrement) (hdt : 0 ≤ dt)
    (h0 : 0 ≤ e.waterLevel) (h1 : e.waterLevel ≤ 100)
    (hsp : ∀ s ∈ e.splashEffects, 0 ≤ s.radius ∧ 0 ≤ s.expansionSpeed)
    (hrng : ∀ k, 0 ≤ (rng k).2) :
    (0 ≤ (e.update dt rng).waterLevel ∧
      (e.update dt rng).waterLevel ≤ 100) ∧
    (∀ s ∈ (e.update dt rng).splashEffects, 0 ≤ s.radius) ∧
    (∀ s s', stepSplash dt s = some s' →
      s'.radius = s.radius + s.expansionSpeed * dt) := by
  refine ⟨⟨update_waterLevel_nonneg e dt rng hinc h0,
    (update_waterLevel_mono e dt rng hinc h1).2⟩, ?_,
    fun s s' h => (stepSplash_eq_some h).1⟩
  intro s' hs'
  have hs'' : s' ∈ ((stepDroplets dt e.gravity e.dropletIncrement
      e.maxSplashEffects rng e.droplets
      (e.waterLevel, e.splashEffects, 0)).2.2.1).filterMap (stepSplash dt) :=
    hs'
  rcases List.mem_filterMap.mp hs'' with ⟨a, ha, hstep⟩
  have hfields := stepSplash_eq_some hstep
  have hbase : 0 ≤ a.radius ∧ 0 ≤ a.expansionSpeed := by
    rcases stepDroplets_splashes_mem dt e.gravity e.dropletIncrement
        e.maxSplashEffects rng e.droplets (e.waterLevel, e.splashEffects, 0)
        a ha with hmem | ⟨x, y, k, hnew⟩
    · exact hsp a hmem
    · subst hnew
      have := hrng k
      constructor
      · norm_num [newSplash]
      · simp only [newSplash]
        nlinarith
  rw [hfields.1]
  nlinarith [hbase.1, hbase.2]

/-- Witness for C8 (amended) at the one-splash engine with a 100 ms tick:
bounds hold, and the splash stepped by the raw 100 ms grows by
`expansionSpeed · 100`. -/
theorem C8_update_safety_amended_witness :
    (0 ≤ (engineOneSplash.update 100 rngZero).waterLevel ∧
      (engineOneSplash.update 100 rngZero).waterLevel ≤ 100) ∧
    (⟨0, 0, 5002, 30, 50, 3/5, 9/10⟩ : Splash).radius =
      (newSplash 0 0 0 0).radius +
        (newSplash 0 0 0 0).expansionSpeed * 100 := by
  have h := C8_update_safety_amended engineOneSplash 100 rngZero
    (by norm_num [engineOneSplash, Engine.init]) (by norm_num)
    (by norm_num [engineOneSplash, Engine.init])
    (by norm_num [engineOneSplash, Engine.init])
    (by intro s hs
        simp only [engineOneSplash, Engine.init, List.mem_singleton] at hs
        subst hs
        norm_num [newSplash])
    (by intro k; norm_num [rngZero])
  exact ⟨h.1, h.2.2 (newSplash 0 0 0 0) ⟨0, 0, 5002, 30, 50, 3/5, 9/10⟩
    (by norm_num [stepSplash, newSplash])⟩

/-- C9: saving any progress record and loading it back returns the exact
record (in particular waterLevel 42 with fish achieved); loading an empty
store, or a store holding a value that is not a progress record, returns
`none` — never an exception (all operations are total functions). -/
theorem C9_progress_roundtrip (st : ProgressState) :
    loadProgress (saveProgress st) = some st ∧
    loadProgress none = none ∧
    loadProgress (some (JValue.str "corrupt")) = none ∧
    loadProgress (saveProgress
        { waterLevel := 42
          milestones := { fish := true, waves := false, completion := false } })
      = some { waterLevel := 42
               milestones :=
                 { fish := true, waves := false, completion := false } } := by
  refine ⟨?_, rfl, rfl, rfl⟩
  obtain ⟨wl, ⟨f, w, c⟩⟩ := st
  rfl

/-- C10: a monitor update with a non-positive wall-clock delta records no
sample and leaves the rolling mean untouched; a strictly positive delta
appends the instantaneous fps as the newest sample, keeps only a suffix
(the most recent samples) of the pushed history, caps the history at 60,
and recomputes the mean over the kept history. -/
theorem C10_frame_monitor (m : FrameRateMonitor) (now : ℚ) :
    (now - m.lastTime ≤ 0 →
      (m.update now).fpsHistory = m.fpsHistory ∧
        (m.update now).fps = m.fps) ∧
    (0 < now - m.lastTime → 0 < m.maxHistoryLength →
      (m.update now).fpsHistory.getLast?
          = some (1000 / (now - m.lastTime)) ∧
        List.IsSuffix (m.update now).fpsHistory
          (m.fpsHistory ++ [1000 / (now - m.lastTime)])) ∧
    (m.maxHistoryLength = 60 → m.fpsHistory.length ≤ 60 →
      (m.update now).fpsHistory.length ≤ 60) ∧
    (0 < now - m.lastTime →
      (m.update now).fps = FrameRateMonitor.getAverageFps (m.update now)) := by
  refine ⟨?_, ?_, ?_, ?_⟩
  · intro h
    rw [FrameRateMonitor.update, if_neg (not_lt.mpr h)]
    exact ⟨rfl, rfl⟩
  · intro h hmax
    rw [FrameRateMonitor.update, if_pos h]
    simp only
    split_ifs with hover
    · cases hl : m.fpsHistory with
      | nil =>
        rw [hl] at hover
        simp at hover
        omega
      | cons a t =>
        simp only [List.cons_append, List.tail_cons]
        exact ⟨List.getLast?_concat _, [a], rfl⟩
    · exact ⟨List.getLast?_concat _, List.suffix_refl _⟩
  · intro h60 hlen
    rw [FrameRateMonitor.update]
    split_ifs with hpos
    · simp only
      split_ifs with hover
      · rw [List.length_tail]
        simp only [List.length_append, List.length_cons, List.length_nil]
        omega
      · simp only [List.length_append, List.length_cons, List.length_nil]
          at hover ⊢
        rw [h60] at hover
        omega
    · exact hlen
  · intro h
    rw [FrameRateMonitor.update, if_pos h]
    rfl

/-- Witness for C10: the freshly constructed monitor updated with a zero
delta (nothing recorded) and with a 10 ms delta (sample 100 recorded). -/
theorem C10_frame_monitor_witness :
    ((FrameRateMonitor.init 0).update 0).fpsHistory
        = (FrameRateMonitor.init 0).fpsHistory ∧
    ((FrameRateMonitor.init 0).update 10).fpsHistory.getLast?
        = some (1000 / (10 - (FrameRateMonitor.init 0).lastTime)) ∧
    ((FrameRateMonitor.init 0).update 10).fpsHistory.length ≤ 60 ∧
    ((FrameRateMonitor.init 0).update 10).fps
        = FrameRateMonitor.getAverageFps
            ((FrameRateMonitor.init 0).update 10) := by
  have h0 := C10_frame_monitor (FrameRateMonitor.init 0) 0
  have h1 := C10_frame_monitor (FrameRateMonitor.init 0) 10
  exact ⟨(h0.1 (by norm_num [FrameRateMonitor.init])).1,
    (h1.2.1 (by norm_num [FrameRateMonitor.init])
      (by norm_num [FrameRateMonitor.init])).1,
    h1.2.2.1 rfl (by simp [FrameRateMonitor.init]),
    h1.2.2.2 (by norm_num [FrameRateMonitor.init])⟩

end WaterCoin
